import Mathlib

/-!
# Verification of the IncidentRouter assignment engine

Shallow embedding of the incident-assignment logic of the IncidentRouter
repository.  Two handler variants exist in the source:

* `weight_calculator.py` / `assignment_processor.py` — the SQS consumer that
  scores members with workload / role / availability factors and assigns via
  a ServiceNow client (namespace `WC` here);
* `processor.py` — the queue-worker variant with a pre-check / post-check on
  the assigned_to field before the commit call (namespace `Proc` here).

Python floats are modelled as rationals; the scoring arithmetic involved is
exact at this scale.  `datetime.time` values are modelled as hour/minute
pairs compared lexicographically, matching Python time comparison for the
fields the code reads.  External I/O (ServiceNow, MySQL, SQS) is modelled by
oracle parameters giving the values those calls return.
-/

/-- A time of day, as Python `datetime.time` restricted to the fields the
source reads (hour, minute). -/
structure Tod where
  hour : Nat
  minute : Nat
deriving DecidableEq, Repr

/-- Python `<=` on `datetime.time`: lexicographic on (hour, minute). -/
def todLe (a b : Tod) : Bool :=
  a.hour < b.hour || (a.hour == b.hour && a.minute ≤ b.minute)

/-- Minutes since midnight, as in `_calculate_shift_proximity`:
`hour * 60 + minute`. -/
def Tod.toMin (t : Tod) : Nat :=
  t.hour * 60 + t.minute

/-- Split a character list on the colon separator (the behaviour of
splitting a string on the ":" delimiter). -/
def splitCols (l : List Char) : List (List Char) :=
  l.foldr (fun c acc =>
    if c = ':' then [] :: acc
    else match acc with
      | [] => [[c]]
      | t :: ts => (c :: t) :: ts) [[]]

/-- Read a two-digit decimal component.  Helper for `parseTod`. -/
def twoDigits : List Char → Option Nat
  | [c1, c2] =>
    if c1.isDigit && c2.isDigit then
      some ((c1.toNat - 48) * 10 + (c2.toNat - 48))
    else none
  | _ => none

/-- Python `time.fromisoformat` on the shift strings stored in MEMBER_DATA
(documented format HH:MM, 24-hour; HH:MM:SS also accepted).  Returns `none`
exactly when the source raises `ValueError`.  Fractional seconds and
timezone suffixes do not occur in this data model and are not accepted. -/
def parseTod (s : String) : Option Tod :=
  match splitCols s.data with
  | [h, m] =>
    match twoDigits h, twoDigits m with
    | some hv, some mv =>
      if hv < 24 && mv < 60 then some ⟨hv, mv⟩ else none
    | _, _ => none
  | [h, m, sec] =>
    match twoDigits h, twoDigits m, twoDigits sec with
    | some hv, some mv, some sv =>
      if hv < 24 && mv < 60 && sv < 60 then some ⟨hv, mv⟩ else none
    | _, _, _ => none
  | _ => none

/-- A roster row of the MEMBER_DATA table (`models.MemberData`), the fields
the scoring code reads. -/
structure Member where
  member_id : String
  member_name : String
  role : String
  experience_level : Nat
  shift_start : String
  shift_end : String
  weekend_shift_flag : Bool
deriving DecidableEq, Repr

/-- An open incident held by a member, as consumed by
`WeightCalculator._calculate_workload_score` (a dict read with
`incident.get('priority', '4')`; `none` models an absent key). -/
structure WItem where
  priority : Option String
deriving DecidableEq, Repr

namespace WC

/-- `Config.PRIORITY_WEIGHTS` lookup with the `.get(priority, 1.0)`
fallback of `_calculate_workload_score`. -/
def priorityWeight (p : String) : ℚ :=
  match p with
  | "1" => 5
  | "2" => 3
  | "3" => 2
  | "4" => 1
  | "5" => 1/2
  | _ => 1

/-- The `weighted_count` accumulated over the open incidents in
`_calculate_workload_score`, with the `'4'` default for a missing
priority key. -/
def weightedCount (items : List WItem) : ℚ :=
  (items.map (fun it => priorityWeight (it.priority.getD "4"))).sum

/-- `WeightCalculator._calculate_workload_score`: 1.0 for an empty list,
otherwise `1 / (1 + weighted_count * 0.5)`. -/
def calculate_workload_score (items : List WItem) : ℚ :=
  if items = [] then 1
  else 1 / (1 + weightedCount items * (1/2))

/-- Python `str.upper()` (character-wise, as for the ASCII role codes this
data model stores). -/
def upperStr (s : String) : String :=
  ⟨s.data.map Char.toUpper⟩

/-- `Config.ROLE_MULTIPLIERS` lookup with the `.get(role.upper(), 1.0)`
fallback of `_calculate_role_score`. -/
def roleMultiplier (role : String) : ℚ :=
  match upperStr role with
  | "L3" => 3/2
  | "L2" => 6/5
  | "L1" => 1
  | "TRAINEE" => 4/5
  | _ => 1

/-- `WeightCalculator._calculate_role_score`:
`base * (1 + min(experience * 0.02, 0.2))`. -/
def calculate_role_score (role : String) (experience_level : Nat) : ℚ :=
  roleMultiplier role * (1 + min ((experience_level : ℚ) * (1/50)) (1/5))

/-- `WeightCalculator._is_time_in_shift`: within `[start, end]` for a
normal shift, past start or before end for a shift crossing midnight. -/
def is_time_in_shift (current shift_start shift_end : Tod) : Bool :=
  if todLe shift_start shift_end then
    todLe shift_start current && todLe current shift_end
  else
    todLe shift_start current || todLe current shift_end

/-- The `min_distance` (in minutes) computed by
`WeightCalculator._calculate_shift_proximity`: minutes-since-midnight with
the day-crossing normalization (`end += 1440` when `start > end`, and then
`current += 1440` when `current < start`), then the smaller of the absolute
distances to the two shift boundaries. -/
def proximityMinDistance (current shift_start shift_end : Tod) : ℤ :=
  let currentMin : ℤ := current.toMin
  let startMin : ℤ := shift_start.toMin
  let endMin0 : ℤ := shift_end.toMin
  let endMin : ℤ := if startMin > endMin0 then endMin0 + 24 * 60 else endMin0
  let currentMin2 : ℤ :=
    if startMin > endMin0 && currentMin < startMin then currentMin + 24 * 60
    else currentMin
  min |currentMin2 - startMin| |currentMin2 - endMin|

/-- `WeightCalculator._calculate_shift_proximity`:
`max(0.1, 1 - min_distance / 240)`. -/
def calculate_shift_proximity (current shift_start shift_end : Tod) : ℚ :=
  max (1/10) (1 - (proximityMinDistance current shift_start shift_end : ℚ) / 240)

/-- `WeightCalculator._calculate_availability_score`, with the evaluation
instant (`datetime.now()`) passed explicitly as weekday (0 = Monday) and
time of day.  Weekend-ineligible members score 0.1; an unparseable shift
string scores the 0.5 fail-open default; in-shift members score 1.0;
otherwise the proximity score applies. -/
def calculate_availability_score (weekday : Nat) (now : Tod) (m : Member) : ℚ :=
  if weekday ≥ 5 && !m.weekend_shift_flag then 1/10
  else
    match parseTod m.shift_start with
    | none => 1/2
    | some s =>
      match parseTod m.shift_end with
      | none => 1/2
      | some e =>
        if is_time_in_shift now s e then 1
        else calculate_shift_proximity now s e

end WC

namespace WC

/-- `assignment_processor.is_member_currently_available`: weekend-ineligible
members on a weekend are excluded; members whose shift strings fail to
parse count as available (fail-open); off-shift members are excluded only
when their availability score falls below 0.3. -/
def is_member_currently_available (m : Member) (weekday : Nat) (now : Tod) : Bool :=
  if weekday ≥ 5 && !m.weekend_shift_flag then false
  else
    match parseTod m.shift_start with
    | none => true
    | some s =>
      match parseTod m.shift_end with
      | none => true
      | some e =>
        if is_time_in_shift now s e then true
        else
          if calculate_availability_score weekday now m < 3/10 then false
          else true

/-- The `MemberWeight` dataclass of `weight_calculator.py` (the
`calculation_details` logging dict is not read by any downstream logic and
is omitted). -/
structure MemberWeight where
  member_id : String
  member_name : String
  workload_score : ℚ
  role_score : ℚ
  availability_score : ℚ
  final_weight : ℚ
deriving DecidableEq, Repr

/-- The loop body of `WeightCalculator.calculate_member_weights` for one
member: the three factor scores and the weighted sum with the configured
coefficients (`WORKLOAD_WEIGHT = 0.4`, `ROLE_WEIGHT = 0.3`,
`AVAILABILITY_WEIGHT = 0.3`).  `workloads` is the `member_workloads` dict
(`.get(member_id, [])`). -/
def scoreMember (workloads : String → List WItem) (weekday : Nat) (now : Tod)
    (m : Member) : MemberWeight :=
  let w := calculate_workload_score (workloads m.member_id)
  let r := calculate_role_score m.role m.experience_level
  let a := calculate_availability_score weekday now m
  { member_id := m.member_id
    member_name := m.member_name
    workload_score := w
    role_score := r
    availability_score := a
    final_weight := w * (2/5) + r * (3/10) + a * (3/10) }

/-- Python stable sort by `final_weight` descending
(`member_weights.sort(key=lambda x: x.final_weight, reverse=True)`): a
stable insertion sort placing an earlier element before any later element
it ties with. -/
def sortWeightsDesc (l : List MemberWeight) : List MemberWeight :=
  List.insertionSort (fun a b => b.final_weight ≤ a.final_weight) l

/-- `WeightCalculator.calculate_member_weights`, with the per-member score
computation abstracted as `score` (the source wraps the whole member loop
body in try/except and skips a member on any exception; `none` models a
raised exception for that member).  The two `WeightCalculationError`
raises become `Except.error`. -/
def calcMemberWeightsWith (score : Member → Option MemberWeight)
    (available_members : List Member) : Except String (List MemberWeight) :=
  if available_members = [] then
    Except.error "No available members to calculate weights for"
  else
    let ws := available_members.filterMap score
    if ws = [] then
      Except.error "Failed to calculate weights for any members"
    else
      Except.ok (sortWeightsDesc ws)

/-- `WeightCalculator.calculate_member_weights` instantiated with the real
(non-raising) scoring arithmetic of the source. -/
def calculate_member_weights (workloads : String → List WItem)
    (weekday : Nat) (now : Tod) (available_members : List Member) :
    Except String (List MemberWeight) :=
  calcMemberWeightsWith (fun m => some (scoreMember workloads weekday now m))
    available_members

/-- The reason-phrase list built by `WeightCalculator.select_best_member`
from the winning member's scores. -/
def reasonParts (best : MemberWeight) : List String :=
  (if best.workload_score > 4/5 then ["low current workload"]
   else if best.workload_score > 1/2 then ["moderate workload"]
   else ["manageable workload"]) ++
  (if best.role_score > 6/5 then ["high experience level"]
   else if best.role_score > 1 then ["suitable experience"]
   else []) ++
  (if best.availability_score > 9/10 then ["currently available"]
   else if best.availability_score > 1/2 then ["partially available"]
   else [])

/-- `WeightCalculator.select_best_member`: take the head of the (already
sorted) weight list and build the rationale sentence.  The Python float
formatting of the final weight is abstracted by the exact rational. -/
def select_best_member (member_weights : List MemberWeight) :
    Except String (MemberWeight × String) :=
  match member_weights with
  | [] => Except.error "No member weights provided for selection"
  | best :: _ =>
    Except.ok (best,
      "Selected " ++ best.member_name ++ " due to: " ++
      String.intercalate ", " (reasonParts best) ++
      ". Final weight: " ++ toString best.final_weight)

/-- The first-listed element of maximal `final_weight` (the element a
stable descending sort puts first). -/
def argmaxFirst : List MemberWeight → Option MemberWeight
  | [] => none
  | x :: xs =>
    match argmaxFirst xs with
    | none => some x
    | some y => if y.final_weight > x.final_weight then some y else some x

end WC

namespace Proc

/-- An incident row returned by `fetch_assigned_incidents_for_member`.
The `opened_at` parsing of `compute_base_workload` is embedded as the
resulting signed age in hours (`(now_dt - opened_dt) / 3600`, before the
clamp to 0; a parse failure yields age 0). -/
structure SNIncident where
  priority : Option String
  severity : Option String
  rawAgeHours : ℚ
deriving DecidableEq, Repr

/-- The module-level `PRIORITY_WEIGHT` table of `processor.py` with the
`.get(str(p), 1.0)` fallback. -/
def priorityWeight (p : String) : ℚ :=
  match p with
  | "1" => 6
  | "2" => 3
  | "3" => 1
  | "4" => 1/2
  | "5" => 1/2
  | _ => 1

/-- The module-level `SEVERITY_MULT` table of `processor.py` with the
`.get(str(s), 1.0)` fallback. -/
def severityMult (s : String) : ℚ :=
  match s with
  | "1" => 13/10
  | "2" => 11/10
  | "3" => 1
  | _ => 1

/-- The module-level `ROLE_MULT` table of `processor.py` with the
`.get(role, 1.0)` fallback. -/
def roleMult (role : String) : ℚ :=
  match role with
  | "L1" => 6/5
  | "L2" => 1
  | "L3" => 9/10
  | "SME" => 17/20
  | _ => 1

/-- `processor.compute_base_workload`: each open incident contributes
`priority_weight * severity_mult * (1 + max(0, age_hours) / 24)`, with the
`or '3'` defaults for a missing priority or severity. -/
def compute_base_workload (incidents : List SNIncident) : ℚ :=
  (incidents.map (fun inc =>
    priorityWeight (inc.priority.getD "3") * severityMult (inc.severity.getD "3") *
      (1 + max 0 inc.rawAgeHours / 24))).sum

/-- A MEMBER_DATA row as read by `processor.select_best_member`
(`c.get('role') or 'L2'`, `c.get('weight_modifier') or 1.0`; `none`
models a missing or null column). -/
structure Row where
  member_sys_id : String
  member_name : String
  role : Option String
  weight_modifier : Option ℚ
deriving DecidableEq, Repr

/-- One entry of the score snapshot built by `processor.select_best_member`
(the fields downstream logic reads). -/
structure ProcScore where
  member_sys_id : String
  final_weight : ℚ
deriving DecidableEq, Repr

/-- The scoring loop of `processor.select_best_member`: for the i-th
candidate, `final = base_workload * role_mult * weight_mod
+ 0.1 * recent_count + jitter(i)`, where `assigned` and `recent` are the
ServiceNow / history oracle responses and `jitter i` is the i-th draw of
`random.uniform(0, 0.01)`. -/
def procScores (assigned : String → List SNIncident) (recent : String → Nat)
    (jitter : Nat → ℚ) : Nat → List Row → List ProcScore
  | _, [] => []
  | i, c :: cs =>
    { member_sys_id := c.member_sys_id
      final_weight :=
        compute_base_workload (assigned c.member_sys_id) *
          roleMult (c.role.getD "L2") * (c.weight_modifier.getD 1) +
        (1/10) * (recent c.member_sys_id : ℚ) + jitter i } ::
    procScores assigned recent jitter (i + 1) cs

/-- Python stable ascending sort on `final_weight`
(`scores.sort(key=lambda x: x['final_weight'])`). -/
def sortProcAsc (l : List ProcScore) : List ProcScore :=
  List.insertionSort (fun a b => a.final_weight ≤ b.final_weight) l

/-- `processor.select_best_member`: score every candidate, sort ascending
by final weight, return the first (least loaded) member and the sorted
snapshot; `(none, [])` when there are no candidates. -/
def select_best_member (assigned : String → List SNIncident)
    (recent : String → Nat) (jitter : Nat → ℚ) (candidates : List Row) :
    Option String × List ProcScore :=
  let scores := sortProcAsc (procScores assigned recent jitter 0 candidates)
  match scores with
  | [] => (none, [])
  | best :: rest => (some best.member_sys_id, best :: rest)

/-- The per-record outcome of `processor.lambda_handler` (each branch that
ends the iteration for one SQS record). -/
inductive Outcome where
  | notFound
  | alreadyAssigned
  | noMembers
  | noAvailable
  | noCandidate
  | raceLost
  | failed
  | assigned
deriving DecidableEq, Repr

/-- What one iteration of `processor.lambda_handler` did: the outcome, how
many `assign_incident_to_member` PATCH calls were issued, how many
`record_assignment_history` inserts were issued, and the assigned_to
holder after the iteration. -/
structure RunResult where
  outcome : Outcome
  commitsIssued : Nat
  recordsIssued : Nat
  newHolder : Option String
deriving DecidableEq, Repr

/-- One record iteration of `processor.lambda_handler`, with every external
response supplied as an oracle: `found` and `preHolder` are the pre-check
`confirm_incident_unassigned` response (`none` models an empty or missing
assigned_to field, which is falsy in Python), `groupMembers` the ServiceNow
group roster, `memberRows` the shift-filtered MEMBER_DATA rows,
`postHolder` the post-check response, `commitOk` whether the PATCH succeeds
and `recordOk` whether the history insert succeeds (a failure of either
raises and lands in the catch-all `except`). -/
def processRecord (found : Bool) (preHolder : Option String)
    (groupMembers : List String) (memberRows : List Row)
    (assigned : String → List SNIncident) (recent : String → Nat)
    (jitter : Nat → ℚ) (maxCandidates : Nat)
    (postHolder : Option String) (commitOk : Bool) (recordOk : Bool) :
    RunResult :=
  if !found then ⟨.notFound, 0, 0, preHolder⟩
  else if preHolder.isSome then ⟨.alreadyAssigned, 0, 0, preHolder⟩
  else if groupMembers = [] then ⟨.noMembers, 0, 0, preHolder⟩
  else if memberRows = [] then ⟨.noAvailable, 0, 0, preHolder⟩
  else
    match select_best_member assigned recent jitter (memberRows.take maxCandidates) with
    | (none, _) => ⟨.noCandidate, 0, 0, preHolder⟩
    | (some sel, _) =>
      if postHolder.isSome then ⟨.raceLost, 0, 0, postHolder⟩
      else if !commitOk then ⟨.failed, 1, 0, preHolder⟩
      else if !recordOk then ⟨.failed, 1, 1, some sel⟩
      else ⟨.assigned, 1, 1, some sel⟩

end Proc

namespace AP

/-- What one call of
`assignment_processor.process_incident_assignment` did: the boolean the
function returns, how many assignment PUT calls (`assign_incident`
updates) were issued, how many decision-record writes
(`db_manager.log_assignment`) were issued, and the incident holder
afterwards. -/
structure APResult where
  success : Bool
  commitsIssued : Nat
  recordsIssued : Nat
  newHolder : Option String
deriving DecidableEq, Repr

/-- `assignment_processor.process_incident_assignment` for one incident,
externals as oracles.  `holder` is the current assigned_to value of the
incident in ServiceNow; the function body never reads it (there is no
pre-check or post-check in this variant), it is threaded only to expose
the resulting state.  `snMembers` is the ServiceNow group roster as
(user_name, sys_id) pairs, `dbMembers` the MEMBER_DATA rows for the group,
`workloads` the per-member open-incident oracle, `incidentFound` whether
the `assign_incident` lookup of the incident number succeeds, and `putOk`
whether its PUT succeeds. -/
def process_incident_assignment (holder : Option String)
    (snMembers : List (String × String)) (dbMembers : List Member)
    (workloads : String → List WItem) (weekday : Nat) (now : Tod)
    (incidentFound : Bool) (putOk : Bool) : APResult :=
  if snMembers = [] then ⟨false, 0, 0, holder⟩
  else
    let matched := dbMembers.filter
      (fun m => (snMembers.map Prod.fst).contains m.member_id)
    let available := matched.filter
      (fun m => WC.is_member_currently_available m weekday now)
    if available = [] then ⟨false, 0, 0, holder⟩
    else
      match WC.calculate_member_weights workloads weekday now available with
      | Except.error _ => ⟨false, 0, 0, holder⟩
      | Except.ok weights =>
        match WC.select_best_member weights with
        | Except.error _ => ⟨false, 0, 0, holder⟩
        | Except.ok (best, _) =>
          match snMembers.find? (fun p => p.1 = best.member_id) with
          | none => ⟨false, 0, 0, holder⟩
          | some p =>
            if !incidentFound then ⟨false, 0, 0, holder⟩
            else if !putOk then ⟨false, 1, 0, holder⟩
            else ⟨true, 1, 1, some p.2⟩

end AP

section Theorems

/-- Every priority weight in the Config table (including the fallback) is
positive. -/
lemma priorityWeight_pos (p : String) : 0 < WC.priorityWeight p := by
  unfold WC.priorityWeight
  split <;> norm_num

/-- The weighted priority count of an open-incident list is nonnegative. -/
lemma weightedCount_nonneg (items : List WItem) : 0 ≤ WC.weightedCount items := by
  unfold WC.weightedCount
  apply List.sum_nonneg
  intro x hx
  simp only [List.mem_map] at hx
  obtain ⟨it, _, rfl⟩ := hx
  exact le_of_lt (priorityWeight_pos _)

/-- C6: the workload scorer returns exactly 1 for an empty open-item list;
otherwise the score is `1 / (1 + 0.5 * weighted)` where `weighted` is the
sum of the priority-weight table entries over the open items; the score is
strictly decreasing as the weighted sum increases, and always lies in
(0, 1]. -/
theorem C6_workload_score (items l1 l2 : List WItem) :
    WC.calculate_workload_score [] = 1 ∧
    (items ≠ [] →
      WC.calculate_workload_score items = 1 / (1 + WC.weightedCount items * (1/2))) ∧
    (l1 ≠ [] → l2 ≠ [] → WC.weightedCount l1 < WC.weightedCount l2 →
      WC.calculate_workload_score l2 < WC.calculate_workload_score l1) ∧
    0 < WC.calculate_workload_score items ∧
    WC.calculate_workload_score items ≤ 1 := by
  have hpos : ∀ l : List WItem, (0:ℚ) < 1 + WC.weightedCount l * (1/2) := by
    intro l
    have := weightedCount_nonneg l
    nlinarith
  refine ⟨by simp [WC.calculate_workload_score], fun h => by
      simp [WC.calculate_workload_score, h], fun h1 h2 hlt => ?_, ?_, ?_⟩
  · simp only [WC.calculate_workload_score, h1, h2, if_neg]
    apply one_div_lt_one_div_of_lt (hpos l1)
    nlinarith
  · unfold WC.calculate_workload_score
    split
    · norm_num
    · exact div_pos one_pos (hpos items)
  · unfold WC.calculate_workload_score
    split
    · norm_num
    · rw [div_le_one (hpos items)]
      have := weightedCount_nonneg items
      nlinarith

/-- Closed instance of C6: for one P5 item versus one P1 item the weighted
counts are 0.5 and 5, the nonempty-case formula applies, and the score of
the heavier list is strictly smaller. -/
theorem C6_workload_score_witness :
    WC.calculate_workload_score [⟨some "5"⟩] =
      1 / (1 + WC.weightedCount [⟨some "5"⟩] * (1/2)) ∧
    WC.calculate_workload_score [⟨some "1"⟩] <
      WC.calculate_workload_score [⟨some "5"⟩] := by
  have h := C6_workload_score [⟨some "5"⟩] [⟨some "5"⟩] [⟨some "1"⟩]
  refine ⟨h.2.1 (by simp), h.2.2.1 (by simp) (by simp) ?_⟩
  norm_num [WC.weightedCount, WC.priorityWeight]

/-- C7: for a shift with start ≤ end the member is on duty iff the time
lies in [start, end]; for start > end (overnight shift) iff the time is at
or past the start or at or before the end. -/
theorem C7_shift_window (shift_start shift_end t : Tod) :
    (todLe shift_start shift_end = true →
      (WC.is_time_in_shift t shift_start shift_end = true ↔
        (todLe shift_start t = true ∧ todLe t shift_end = true))) ∧
    (todLe shift_start shift_end = false →
      (WC.is_time_in_shift t shift_start shift_end = true ↔
        (todLe shift_start t = true ∨ todLe t shift_end = true))) := by
  constructor
  · intro h
    simp [WC.is_time_in_shift, h]
  · intro h
    simp [WC.is_time_in_shift, h]

/-- Closed instance of C7: a normal shift 09:00-17:00 contains 10:00, and
an overnight shift 22:00-06:00 contains 23:30 by the wraparound rule. -/
theorem C7_shift_window_witness :
    (WC.is_time_in_shift ⟨10,0⟩ ⟨9,0⟩ ⟨17,0⟩ = true ↔
      (todLe ⟨9,0⟩ ⟨10,0⟩ = true ∧ todLe ⟨10,0⟩ ⟨17,0⟩ = true)) ∧
    (WC.is_time_in_shift ⟨23,30⟩ ⟨22,0⟩ ⟨6,0⟩ = true ↔
      (todLe ⟨22,0⟩ ⟨23,30⟩ = true ∨ todLe ⟨23,30⟩ ⟨6,0⟩ = true)) :=
  ⟨(C7_shift_window ⟨9,0⟩ ⟨17,0⟩ ⟨10,0⟩).1 (by decide),
   (C7_shift_window ⟨22,0⟩ ⟨6,0⟩ ⟨23,30⟩).2 (by decide)⟩

/-- C8 counterexample: for the overnight shift 22:00-06:00 evaluated at
12:00, the wraparound-normalized minimum boundary distance the code
computes is 360 minutes (to the 06:00 end boundary), not the 600 minutes
(to the 22:00 start boundary) the claim states. -/
theorem C8_counterexample :
    WC.proximityMinDistance ⟨12,0⟩ ⟨22,0⟩ ⟨6,0⟩ = 360 ∧
    ¬ WC.proximityMinDistance ⟨12,0⟩ ⟨22,0⟩ ⟨6,0⟩ = 600 := by
  decide

/-- C8 amended: for shift 22:00-06:00, 23:30 is on duty and 12:00 is off
duty; at 12:00 the proximity computation measures 360 minutes to the
nearer (06:00) boundary under wraparound normalization, which exceeds the
240-minute horizon and yields the 0.1 floor availability score. -/
theorem C8_overnight_scenario :
    WC.is_time_in_shift ⟨23,30⟩ ⟨22,0⟩ ⟨6,0⟩ = true ∧
    WC.is_time_in_shift ⟨12,0⟩ ⟨22,0⟩ ⟨6,0⟩ = false ∧
    WC.proximityMinDistance ⟨12,0⟩ ⟨22,0⟩ ⟨6,0⟩ = 360 ∧
    WC.calculate_shift_proximity ⟨12,0⟩ ⟨22,0⟩ ⟨6,0⟩ = 1/10 ∧
    WC.calculate_availability_score 2 ⟨12,0⟩
      ⟨"m1", "Morgan", "L2", 3, "22:00", "06:00", true⟩ = 1/10 := by
  have hd : WC.proximityMinDistance ⟨12,0⟩ ⟨22,0⟩ ⟨6,0⟩ = 360 := by decide
  have hprox : WC.calculate_shift_proximity ⟨12,0⟩ ⟨22,0⟩ ⟨6,0⟩ = 1/10 := by
    rw [WC.calculate_shift_proximity, hd]
    norm_num
  have hs : parseTod "22:00" = some ⟨22,0⟩ := by decide
  have he : parseTod "06:00" = some ⟨6,0⟩ := by decide
  refine ⟨by decide, by decide, hd, hprox, ?_⟩
  rw [WC.calculate_availability_score]
  simp only [hs, he]
  rw [if_neg (by decide)]
  rw [if_neg (by decide)]
  exact hprox

end Theorems

section Theorems2

/-- C9: a member whose shift start or end string fails to parse, and who is
not excluded by the weekend rule, gets availability score exactly 0.5 and
remains available (fail-open): the decision is not aborted for malformed
shift data. -/
theorem C9_malformed_shift (m : Member) (weekday : Nat) (now : Tod)
    (hp : parseTod m.shift_start = none ∨ parseTod m.shift_end = none)
    (hw : (decide (weekday ≥ 5) && !m.weekend_shift_flag) = false) :
    WC.calculate_availability_score weekday now m = 1/2 ∧
    WC.is_member_currently_available m weekday now = true := by
  unfold WC.calculate_availability_score WC.is_member_currently_available
  simp only [hw, Bool.false_eq_true, if_false]
  rcases hp with h | h
  · simp [h]
  · cases hs : parseTod m.shift_start <;> simp [h]

/-- Closed instance of C9: the unparseable shift start "banana" on a
Tuesday yields the 0.5 default score and the member stays available. -/
theorem C9_malformed_shift_witness :
    WC.calculate_availability_score 1 ⟨10,0⟩
      ⟨"m1", "Morgan", "L2", 3, "banana", "17:00", true⟩ = 1/2 ∧
    WC.is_member_currently_available
      ⟨"m1", "Morgan", "L2", 3, "banana", "17:00", true⟩ 1 ⟨10,0⟩ = true :=
  C9_malformed_shift ⟨"m1", "Morgan", "L2", 3, "banana", "17:00", true⟩ 1 ⟨10,0⟩
    (Or.inl (by decide)) (by decide)

/-- C4 counterexample: a member with shift 09:00-17:00 evaluated on a
Monday (weekday 0, not a weekend) at 01:00 is removed from consideration
by `is_member_currently_available` (availability score 0.1 < 0.3), so
removal is not restricted to weekend-ineligible members on weekends. -/
theorem C4_counterexample :
    WC.is_member_currently_available
      ⟨"m1", "Morgan", "L2", 3, "09:00", "17:00", true⟩ 0 ⟨1,0⟩ = false ∧
    ¬ (0 : Nat) ≥ 5 := by
  have hs : parseTod "09:00" = some ⟨9,0⟩ := by decide
  have he : parseTod "17:00" = some ⟨17,0⟩ := by decide
  have hd : WC.proximityMinDistance ⟨1,0⟩ ⟨9,0⟩ ⟨17,0⟩ = 480 := by decide
  have hscore : WC.calculate_availability_score 0 ⟨1,0⟩
      ⟨"m1", "Morgan", "L2", 3, "09:00", "17:00", true⟩ = 1/10 := by
    rw [WC.calculate_availability_score]
    simp only [hs, he]
    rw [if_neg (by decide), if_neg (by decide), WC.calculate_shift_proximity, hd]
    norm_num
  constructor
  · rw [WC.is_member_currently_available]
    simp only [hs, he]
    rw [if_neg (by decide), if_neg (by decide), hscore, if_pos (by norm_num)]
  · decide

/-- C4 amended: `is_member_currently_available` removes a member iff either
the instant is a weekend day and the member is not weekend-eligible, or
both shift strings parse, the member is off shift, and the availability
score falls below the 0.3 cutoff; all other members (including off-duty
ones at score ≥ 0.3 and members with unparseable shifts) remain. -/
theorem C4_availability_filter (m : Member) (weekday : Nat) (now : Tod) :
    WC.is_member_currently_available m weekday now = false ↔
      ((weekday ≥ 5 ∧ m.weekend_shift_flag = false) ∨
       (∃ s e, parseTod m.shift_start = some s ∧ parseTod m.shift_end = some e ∧
         WC.is_time_in_shift now s e = false ∧
         WC.calculate_availability_score weekday now m < 3/10)) := by
  unfold WC.is_member_currently_available
  by_cases hwk : weekday ≥ 5 ∧ m.weekend_shift_flag = false
  · have hg : (decide (weekday ≥ 5) && !m.weekend_shift_flag) = true := by
      simp [hwk.1, hwk.2]
    simp [hg, hwk]
  · have hg : (decide (weekday ≥ 5) && !m.weekend_shift_flag) = false := by
      rcases Decidable.not_and_iff_or_not.mp hwk with h | h
      · simp [h]
      · have : m.weekend_shift_flag = true := by
          cases hb : m.weekend_shift_flag
          · exact absurd hb h
          · rfl
        simp [this]
    simp only [hg, Bool.false_eq_true, if_false]
    cases hs : parseTod m.shift_start with
    | none => simp [hwk, hs]
    | some s =>
      cases he : parseTod m.shift_end with
      | none => simp [hwk, hs, he]
      | some e =>
        by_cases hin : WC.is_time_in_shift now s e = true
        · simp [hin, hwk, hs, he]
        · have hin2 : WC.is_time_in_shift now s e = false := by
            simpa using hin
          by_cases hlt : WC.calculate_availability_score weekday now m < 3/10
          · simp [hin2, hlt, hwk, hs, he]
          · simp [hin2, hlt, hwk, hs, he]

end Theorems2

section Theorems3

instance : IsTotal WC.MemberWeight (fun a b => b.final_weight ≤ a.final_weight) :=
  ⟨fun a b => le_total b.final_weight a.final_weight⟩

instance : IsTrans WC.MemberWeight (fun a b => b.final_weight ≤ a.final_weight) :=
  ⟨fun _ _ _ hab hbc => le_trans hbc hab⟩

/-- Head of a descending ordered insert, in terms of the head of the target
list. -/
lemma head_orderedInsert_desc (x : WC.MemberWeight) (s : List WC.MemberWeight) :
    (List.orderedInsert (fun a b => b.final_weight ≤ a.final_weight) x s).head? =
      match s.head? with
      | none => some x
      | some y => if y.final_weight > x.final_weight then some y else some x := by
  cases s with
  | nil => rfl
  | cons y ys =>
    simp only [List.orderedInsert, List.head?_cons]
    by_cases h : y.final_weight ≤ x.final_weight
    · rw [if_pos h, if_neg (not_lt.mpr h)]
      rfl
    · rw [if_neg h, if_pos (lt_of_not_le h)]
      rfl

/-- The stable descending sort puts the first-listed maximal-weight member
first. -/
lemma sortWeightsDesc_head (l : List WC.MemberWeight) :
    (WC.sortWeightsDesc l).head? = WC.argmaxFirst l := by
  induction l with
  | nil => rfl
  | cons x xs ih =>
    have hstep : WC.sortWeightsDesc (x :: xs) =
        List.orderedInsert (fun a b => b.final_weight ≤ a.final_weight) x
          (WC.sortWeightsDesc xs) := rfl
    rw [hstep, head_orderedInsert_desc, ih]
    cases h : WC.argmaxFirst xs with
    | none => simp [WC.argmaxFirst, h]
    | some y => simp [WC.argmaxFirst, h]

/-- C5 amended: the WeightCalculator ranking is deterministic — the sorted
output is a permutation of the input, sorted by descending final weight,
its head is the first-listed candidate of maximal final weight (ties broken
by input order), and `select_best_member` returns exactly that candidate
with its rationale text a pure function of the sorted list.  (The
`processor.py` ranker variant, by contrast, adds random jitter; see the
counterexample.) -/
theorem C5_wc_ranking_deterministic (l : List WC.MemberWeight) :
    (WC.sortWeightsDesc l).Perm l ∧
    (WC.sortWeightsDesc l).Sorted (fun a b => b.final_weight ≤ a.final_weight) ∧
    (WC.sortWeightsDesc l).head? = WC.argmaxFirst l ∧
    (∀ b, WC.argmaxFirst l = some b →
      ∃ r, WC.select_best_member (WC.sortWeightsDesc l) = Except.ok (b, r)) := by
  refine ⟨List.perm_insertionSort _ l, List.sorted_insertionSort _ l,
    sortWeightsDesc_head l, fun b hb => ?_⟩
  have hh : (WC.sortWeightsDesc l).head? = some b := by
    rw [sortWeightsDesc_head l, hb]
  cases hs : WC.sortWeightsDesc l with
  | nil => rw [hs] at hh; cases hh
  | cons c cs =>
    rw [hs, List.head?_cons] at hh
    obtain rfl : c = b := Option.some_injective _ hh
    exact ⟨_, rfl⟩

/-- Closed instance of C5 amended: with two candidates of equal final
weight, the first-listed one wins. -/
theorem C5_wc_ranking_deterministic_witness :
    ∃ r, WC.select_best_member (WC.sortWeightsDesc
      [⟨"m1", "Morgan", 1, 1, 1, 1⟩, ⟨"m2", "Riley", 1, 1, 1, 1⟩]) =
      Except.ok (⟨"m1", "Morgan", 1, 1, 1, 1⟩, r) :=
  (C5_wc_ranking_deterministic
      [⟨"m1", "Morgan", 1, 1, 1, 1⟩, ⟨"m2", "Riley", 1, 1, 1, 1⟩]).2.2.2
    ⟨"m1", "Morgan", 1, 1, 1, 1⟩
    (by norm_num [WC.argmaxFirst])

/-- C5 counterexample: the `processor.py` ranker adds a per-candidate
random jitter draw; two runs on identical candidates with identical
deterministic inputs, differing only in the jitter draws (both draws
inside the documented `[0, 0.01)` range), select different winners, so
that ranking is not deterministic. -/
theorem C5_counterexample :
    (Proc.select_best_member (fun _ => []) (fun _ => 0)
        (fun i => if i = 0 then 1/1000 else 2/1000)
        [⟨"m1", "Morgan", none, none⟩, ⟨"m2", "Riley", none, none⟩]).1 =
      some "m1" ∧
    (Proc.select_best_member (fun _ => []) (fun _ => 0)
        (fun i => if i = 0 then 2/1000 else 1/1000)
        [⟨"m1", "Morgan", none, none⟩, ⟨"m2", "Riley", none, none⟩]).1 =
      some "m2" ∧
    (0:ℚ) ≤ 1/1000 ∧ (1:ℚ)/1000 < 1/100 ∧ (0:ℚ) ≤ 2/1000 ∧ (2:ℚ)/1000 < 1/100 := by
  refine ⟨?_, ?_, by norm_num, by norm_num, by norm_num, by norm_num⟩ <;>
    norm_num [Proc.select_best_member, Proc.procScores, Proc.sortProcAsc,
      Proc.compute_base_workload, Proc.roleMult, List.insertionSort,
      List.orderedInsert]

/-- C10: `calculate_member_weights` raises `WeightCalculationError` exactly
when the input member list is empty or every per-member computation failed;
otherwise it returns exactly the successfully scored members (failed
members skipped, batch not aborted), sorted by final weight descending. -/
theorem C10_weight_batch (score : Member → Option WC.MemberWeight)
    (members : List Member) :
    ((∃ msg, WC.calcMemberWeightsWith score members = Except.error msg) ↔
      (members = [] ∨ ∀ m ∈ members, score m = none)) ∧
    (∀ l, WC.calcMemberWeightsWith score members = Except.ok l →
      l = WC.sortWeightsDesc (members.filterMap score)) := by
  unfold WC.calcMemberWeightsWith
  by_cases hm : members = []
  · simp [hm]
  · by_cases hf : members.filterMap score = []
    · rw [if_neg hm]
      simp only [hf, if_pos rfl]
      constructor
      · constructor
        · intro _
          exact Or.inr (List.filterMap_eq_nil_iff.mp hf)
        · intro _
          exact ⟨_, rfl⟩
      · intro l h
        cases h
    · rw [if_neg hm, if_neg hf]
      constructor
      · constructor
        · rintro ⟨msg, h⟩
          cases h
        · rintro (h | h)
          · exact absurd h hm
          · exact absurd (List.filterMap_eq_nil_iff.mpr h) hf
      · intro l h
        injection h with h
        exact h.symm

end Theorems3

section Theorems4

/-- C1: in the `processor.py` handler, a non-empty assigned_to at either
the pre-check or the post-check means the commit call is never issued. -/
theorem C1_no_commit_when_held (found : Bool) (preHolder : Option String)
    (groupMembers : List String) (memberRows : List Proc.Row)
    (assigned : String → List Proc.SNIncident) (recent : String → Nat)
    (jitter : Nat → ℚ) (maxCandidates : Nat) (postHolder : Option String)
    (commitOk recordOk : Bool)
    (h : preHolder ≠ none ∨ postHolder ≠ none) :
    (Proc.processRecord found preHolder groupMembers memberRows assigned
      recent jitter maxCandidates postHolder commitOk recordOk).commitsIssued = 0 := by
  unfold Proc.processRecord
  rcases h with h | h <;> rw [Option.ne_none_iff_isSome] at h <;> repeat' split
  all_goals first | rfl | simp_all

/-- Closed instance of C1: with the holder set at the pre-check, no commit
is issued. -/
theorem C1_no_commit_when_held_witness :
    ((some "other" : Option String) ≠ none ∨ (none : Option String) ≠ none) ∧
    (Proc.processRecord true (some "other") ["u1"] [⟨"m1", "Morgan", none, none⟩]
      (fun _ => []) (fun _ => 0) (fun _ => 0) 50 none true true).commitsIssued = 0 :=
  ⟨Or.inl (by simp),
   C1_no_commit_when_held true (some "other") ["u1"] [⟨"m1", "Morgan", none, none⟩]
     (fun _ => []) (fun _ => 0) (fun _ => 0) 50 none true true (Or.inl (by simp))⟩

/-- A run of the `processor.py` handler that ends in the assigned outcome
leaves the holder field set. -/
lemma processRecord_assigned_holder (found : Bool) (preHolder : Option String)
    (groupMembers : List String) (memberRows : List Proc.Row)
    (assigned : String → List Proc.SNIncident) (recent : String → Nat)
    (jitter : Nat → ℚ) (maxCandidates : Nat) (postHolder : Option String)
    (commitOk recordOk : Bool)
    (h : (Proc.processRecord found preHolder groupMembers memberRows assigned
      recent jitter maxCandidates postHolder commitOk recordOk).outcome =
      Proc.Outcome.assigned) :
    (Proc.processRecord found preHolder groupMembers memberRows assigned
      recent jitter maxCandidates postHolder commitOk recordOk).newHolder.isSome = true := by
  unfold Proc.processRecord at h ⊢
  repeat' split at h
  all_goals first | rfl | simp_all

/-- C2 amended: in the `processor.py` handler, once a first processing of a
work item ends in the assigned outcome, a second processing of the same
item (starting from the holder that the first run left) skips at the
pre-check with the already-assigned outcome and issues no second commit
call.  (The `assignment_processor.py` handler has no such pre-check; see
the counterexample.) -/
theorem C2_idempotent_redelivery (found : Bool) (preHolder : Option String)
    (groupMembers : List String) (memberRows : List Proc.Row)
    (assigned : String → List Proc.SNIncident) (recent : String → Nat)
    (jitter : Nat → ℚ) (maxCandidates : Nat) (postHolder : Option String)
    (commitOk recordOk : Bool)
    (h : (Proc.processRecord found preHolder groupMembers memberRows assigned
      recent jitter maxCandidates postHolder commitOk recordOk).outcome =
      Proc.Outcome.assigned)
    (groupMembers2 : List String) (memberRows2 : List Proc.Row)
    (assigned2 : String → List Proc.SNIncident) (recent2 : String → Nat)
    (jitter2 : Nat → ℚ) (maxCandidates2 : Nat) (postHolder2 : Option String)
    (commitOk2 recordOk2 : Bool) :
    (Proc.processRecord true
      (Proc.processRecord found preHolder groupMembers memberRows assigned
        recent jitter maxCandidates postHolder commitOk recordOk).newHolder
      groupMembers2 memberRows2 assigned2 recent2 jitter2 maxCandidates2
      postHolder2 commitOk2 recordOk2).outcome = Proc.Outcome.alreadyAssigned ∧
    (Proc.processRecord true
      (Proc.processRecord found preHolder groupMembers memberRows assigned
        recent jitter maxCandidates postHolder commitOk recordOk).newHolder
      groupMembers2 memberRows2 assigned2 recent2 jitter2 maxCandidates2
      postHolder2 commitOk2 recordOk2).commitsIssued = 0 := by
  have hh := processRecord_assigned_holder found preHolder groupMembers memberRows
    assigned recent jitter maxCandidates postHolder commitOk recordOk h
  obtain ⟨v, hv⟩ := Option.isSome_iff_exists.mp hh
  rw [hv]
  constructor <;> simp [Proc.processRecord]

/-- Closed instance of C2 amended: a concrete first run assigns, and the
redelivered second run skips with no commit. -/
theorem C2_idempotent_redelivery_witness :
    (Proc.processRecord true
      (Proc.processRecord true none ["u1"] [⟨"m1", "Morgan", none, none⟩]
        (fun _ => []) (fun _ => 0) (fun _ => 0) 50 none true true).newHolder
      ["u1"] [⟨"m1", "Morgan", none, none⟩]
      (fun _ => []) (fun _ => 0) (fun _ => 0) 50 none true true).outcome =
      Proc.Outcome.alreadyAssigned ∧
    (Proc.processRecord true
      (Proc.processRecord true none ["u1"] [⟨"m1", "Morgan", none, none⟩]
        (fun _ => []) (fun _ => 0) (fun _ => 0) 50 none true true).newHolder
      ["u1"] [⟨"m1", "Morgan", none, none⟩]
      (fun _ => []) (fun _ => 0) (fun _ => 0) 50 none true true).commitsIssued = 0 :=
  C2_idempotent_redelivery true none ["u1"] [⟨"m1", "Morgan", none, none⟩]
    (fun _ => []) (fun _ => 0) (fun _ => 0) 50 none true true (by decide)
    ["u1"] [⟨"m1", "Morgan", none, none⟩]
    (fun _ => []) (fun _ => 0) (fun _ => 0) 50 none true true

/-- C2 counterexample: the `assignment_processor.py` handler never reads
the holder; after a first processing has committed (holder now set to
sysid1), a second processing of the same work item issues a second commit
call and reports plain success rather than an idempotent skip. -/
theorem C2_counterexample :
    (AP.process_incident_assignment none [("m1", "sysid1")]
      [⟨"m1", "Morgan", "L2", 3, "09:00", "17:00", true⟩]
      (fun _ => []) 1 ⟨10,0⟩ true true) =
      ⟨true, 1, 1, some "sysid1"⟩ ∧
    (AP.process_incident_assignment (some "sysid1") [("m1", "sysid1")]
      [⟨"m1", "Morgan", "L2", 3, "09:00", "17:00", true⟩]
      (fun _ => []) 1 ⟨10,0⟩ true true).commitsIssued = 1 ∧
    (AP.process_incident_assignment (some "sysid1") [("m1", "sysid1")]
      [⟨"m1", "Morgan", "L2", 3, "09:00", "17:00", true⟩]
      (fun _ => []) 1 ⟨10,0⟩ true true).success = true := by
  decide

/-- C3 counterexample: a processing attempt of the `processor.py` handler
that loses the race at the post-check writes zero decision records, not
exactly one. -/
theorem C3_counterexample :
    (Proc.processRecord true none ["u1"] [⟨"m1", "Morgan", none, none⟩]
      (fun _ => []) (fun _ => 0) (fun _ => 0) 50 (some "other") true true).outcome =
      Proc.Outcome.raceLost ∧
    (Proc.processRecord true none ["u1"] [⟨"m1", "Morgan", none, none⟩]
      (fun _ => []) (fun _ => 0) (fun _ => 0) 50 (some "other") true true).recordsIssued = 0 := by
  decide

/-- C3 amended: in both handlers a decision-record write is issued exactly
when the commit call was issued and succeeded.  In `processor.py`, attempts
ending not-found, already-assigned, no-members, no-available, no-candidate,
race-lost, or with a failed commit issue no decision-record write; in
`assignment_processor.py`, attempts ending with no ServiceNow members, no
available members, a weight-calculation failure, a selection failure, an
unmatched winner, an unfound incident, or a failed PUT likewise issue no
decision-record write. -/
theorem C3_record_iff_commit (found : Bool) (preHolder : Option String)
    (groupMembers : List String) (memberRows : List Proc.Row)
    (assigned : String → List Proc.SNIncident) (recent : String → Nat)
    (jitter : Nat → ℚ) (maxCandidates : Nat) (postHolder : Option String)
    (commitOk recordOk : Bool) (holder : Option String)
    (snMembers : List (String × String)) (dbMembers : List Member)
    (workloads : String → List WItem) (weekday : Nat) (now : Tod)
    (incidentFound putOk : Bool) :
    ((Proc.processRecord found preHolder groupMembers memberRows assigned
      recent jitter maxCandidates postHolder commitOk recordOk).recordsIssued =
      if (Proc.processRecord found preHolder groupMembers memberRows assigned
        recent jitter maxCandidates postHolder commitOk recordOk).commitsIssued = 1
          ∧ commitOk = true then 1 else 0) ∧
    ((AP.process_incident_assignment holder snMembers dbMembers workloads
      weekday now incidentFound putOk).recordsIssued =
      if (AP.process_incident_assignment holder snMembers dbMembers workloads
        weekday now incidentFound putOk).commitsIssued = 1
          ∧ putOk = true then 1 else 0) := by
  constructor
  · unfold Proc.processRecord
    repeat' split
    all_goals first | rfl | simp_all
  · have key : ∀ r : AP.APResult,
        (r = ⟨false, 0, 0, holder⟩ ∨
         (putOk = false ∧ r = ⟨false, 1, 0, holder⟩) ∨
         (putOk = true ∧ ∃ v, r = ⟨true, 1, 1, v⟩)) →
        r.recordsIssued = if r.commitsIssued = 1 ∧ putOk = true then 1 else 0 := by
      rintro r (rfl | ⟨hp, rfl⟩ | ⟨hp, v, rfl⟩)
      · simp
      · simp [hp]
      · simp [hp]
    apply key
    unfold AP.process_incident_assignment
    simp only []
    repeat' split
    all_goals first
      | exact Or.inl rfl
      | (refine Or.inr (Or.inl ⟨?_, rfl⟩)
         rename_i hput
         simpa using hput)
      | (refine Or.inr (Or.inr ⟨?_, _, rfl⟩)
         rename_i hput
         simpa using hput)

end Theorems4

/-- Closed instance of C10: of two members, one fails to score and is
skipped without aborting the batch; the successful result is exactly the
sorted list of the scored members. -/
theorem C10_weight_batch_witness :
    [({ member_id := "a", member_name := "A", workload_score := 1,
        role_score := 1, availability_score := 1,
        final_weight := 1 } : WC.MemberWeight)] =
      WC.sortWeightsDesc (([⟨"a", "A", "L1", 0, "09:00", "17:00", true⟩,
        ⟨"zz", "Z", "L1", 0, "09:00", "17:00", true⟩] : List Member).filterMap
        (fun m => if m.member_id = "zz" then none
          else some ⟨m.member_id, m.member_name, 1, 1, 1, 1⟩)) :=
  (C10_weight_batch
      (fun m => if m.member_id = "zz" then none
        else some ⟨m.member_id, m.member_name, 1, 1, 1, 1⟩)
      [⟨"a", "A", "L1", 0, "09:00", "17:00", true⟩,
       ⟨"zz", "Z", "L1", 0, "09:00", "17:00", true⟩]).2
    [⟨"a", "A", 1, 1, 1, 1⟩] (by rfl)
